import Mathlib

/-!
Shallow embedding of the PISTON marching-cube isosurface extractor
(piston/marching_cube.h).  Scalar samples are modelled as rationals;
machine floats do not appear.  The static case tables are transcribed
verbatim from the source; the per-cell classifier, the scan-based
compaction, the offset allocation and the geometry generator's index
arithmetic follow the code line by line.
-/

namespace Piston

/-- Rows 0-15 of `triTable_array`. -/
def triRows0 : List (List Int) :=
  [[-1, -1, -1, -1, -1, -1, -1, -1, -1, -1, -1, -1, -1, -1, -1, -1],
   [0, 8, 3, -1, -1, -1, -1, -1, -1, -1, -1, -1, -1, -1, -1, -1],
   [0, 1, 9, -1, -1, -1, -1, -1, -1, -1, -1, -1, -1, -1, -1, -1],
   [1, 8, 3, 9, 8, 1, -1, -1, -1, -1, -1, -1, -1, -1, -1, -1],
   [1, 2, 10, -1, -1, -1, -1, -1, -1, -1, -1, -1, -1, -1, -1, -1],
   [0, 8, 3, 1, 2, 10, -1, -1, -1, -1, -1, -1, -1, -1, -1, -1],
   [9, 2, 10, 0, 2, 9, -1, -1, -1, -1, -1, -1, -1, -1, -1, -1],
   [2, 8, 3, 2, 10, 8, 10, 9, 8, -1, -1, -1, -1, -1, -1, -1],
   [3, 11, 2, -1, -1, -1, -1, -1, -1, -1, -1, -1, -1, -1, -1, -1],
   [0, 11, 2, 8, 11, 0, -1, -1, -1, -1, -1, -1, -1, -1, -1, -1],
   [1, 9, 0, 2, 3, 11, -1, -1, -1, -1, -1, -1, -1, -1, -1, -1],
   [1, 11, 2, 1, 9, 11, 9, 8, 11, -1, -1, -1, -1, -1, -1, -1],
   [3, 10, 1, 11, 10, 3, -1, -1, -1, -1, -1, -1, -1, -1, -1, -1],
   [0, 10, 1, 0, 8, 10, 8, 11, 10, -1, -1, -1, -1, -1, -1, -1],
   [3, 9, 0, 3, 11, 9, 11, 10, 9, -1, -1, -1, -1, -1, -1, -1],
   [9, 8, 10, 10, 8, 11, -1, -1, -1, -1, -1, -1, -1, -1, -1, -1]]

/-- Rows 16-31 of `triTable_array`. -/
def triRows1 : List (List Int) :=
  [[4, 7, 8, -1, -1, -1, -1, -1, -1, -1, -1, -1, -1, -1, -1, -1],
   [4, 3, 0, 7, 3, 4, -1, -1, -1, -1, -1, -1, -1, -1, -1, -1],
   [0, 1, 9, 8, 4, 7, -1, -1, -1, -1, -1, -1, -1, -1, -1, -1],
   [4, 1, 9, 4, 7, 1, 7, 3, 1, -1, -1, -1, -1, -1, -1, -1],
   [1, 2, 10, 8, 4, 7, -1, -1, -1, -1, -1, -1, -1, -1, -1, -1],
   [3, 4, 7, 3, 0, 4, 1, 2, 10, -1, -1, -1, -1, -1, -1, -1],
   [9, 2, 10, 9, 0, 2, 8, 4, 7, -1, -1, -1, -1, -1, -1, -1],
   [2, 10, 9, 2, 9, 7, 2, 7, 3, 7, 9, 4, -1, -1, -1, -1],
   [8, 4, 7, 3, 11, 2, -1, -1, -1, -1, -1, -1, -1, -1, -1, -1],
   [11, 4, 7, 11, 2, 4, 2, 0, 4, -1, -1, -1, -1, -1, -1, -1],
   [9, 0, 1, 8, 4, 7, 2, 3, 11, -1, -1, -1, -1, -1, -1, -1],
   [4, 7, 11, 9, 4, 11, 9, 11, 2, 9, 2, 1, -1, -1, -1, -1],
   [3, 10, 1, 3, 11, 10, 7, 8, 4, -1, -1, -1, -1, -1, -1, -1],
   [1, 11, 10, 1, 4, 11, 1, 0, 4, 7, 11, 4, -1, -1, -1, -1],
   [4, 7, 8, 9, 0, 11, 9, 11, 10, 11, 0, 3, -1, -1, -1, -1],
   [4, 7, 11, 4, 11, 9, 9, 11, 10, -1, -1, -1, -1, -1, -1, -1]]

/-- Rows 32-47 of `triTable_array`. -/
def triRows2 : List (List Int) :=
  [[9, 5, 4, -1, -1, -1, -1, -1, -1, -1, -1, -1, -1, -1, -1, -1],
   [9, 5, 4, 0, 8, 3, -1, -1, -1, -1, -1, -1, -1, -1, -1, -1],
   [0, 5, 4, 1, 5, 0, -1, -1, -1, -1, -1, -1, -1, -1, -1, -1],
   [8, 5, 4, 8, 3, 5, 3, 1, 5, -1, -1, -1, -1, -1, -1, -1],
   [1, 2, 10, 9, 5, 4, -1, -1, -1, -1, -1, -1, -1, -1, -1, -1],
   [3, 0, 8, 1, 2, 10, 4, 9, 5, -1, -1, -1, -1, -1, -1, -1],
   [5, 2, 10, 5, 4, 2, 4, 0, 2, -1, -1, -1, -1, -1, -1, -1],
   [2, 10, 5, 3, 2, 5, 3, 5, 4, 3, 4, 8, -1, -1, -1, -1],
   [9, 5, 4, 2, 3, 11, -1, -1, -1, -1, -1, -1, -1, -1, -1, -1],
   [0, 11, 2, 0, 8, 11, 4, 9, 5, -1, -1, -1, -1, -1, -1, -1],
   [0, 5, 4, 0, 1, 5, 2, 3, 11, -1, -1, -1, -1, -1, -1, -1],
   [2, 1, 5, 2, 5, 8, 2, 8, 11, 4, 8, 5, -1, -1, -1, -1],
   [10, 3, 11, 10, 1, 3, 9, 5, 4, -1, -1, -1, -1, -1, -1, -1],
   [4, 9, 5, 0, 8, 1, 8, 10, 1, 8, 11, 10, -1, -1, -1, -1],
   [5, 4, 0, 5, 0, 11, 5, 11, 10, 11, 0, 3, -1, -1, -1, -1],
   [5, 4, 8, 5, 8, 10, 10, 8, 11, -1, -1, -1, -1, -1, -1, -1]]

/-- Rows 48-63 of `triTable_array`. -/
def triRows3 : List (List Int) :=
  [[9, 7, 8, 5, 7, 9, -1, -1, -1, -1, -1, -1, -1, -1, -1, -1],
   [9, 3, 0, 9, 5, 3, 5, 7, 3, -1, -1, -1, -1, -1, -1, -1],
   [0, 7, 8, 0, 1, 7, 1, 5, 7, -1, -1, -1, -1, -1, -1, -1],
   [1, 5, 3, 3, 5, 7, -1, -1, -1, -1, -1, -1, -1, -1, -1, -1],
   [9, 7, 8, 9, 5, 7, 10, 1, 2, -1, -1, -1, -1, -1, -1, -1],
   [10, 1, 2, 9, 5, 0, 5, 3, 0, 5, 7, 3, -1, -1, -1, -1],
   [8, 0, 2, 8, 2, 5, 8, 5, 7, 10, 5, 2, -1, -1, -1, -1],
   [2, 10, 5, 2, 5, 3, 3, 5, 7, -1, -1, -1, -1, -1, -1, -1],
   [7, 9, 5, 7, 8, 9, 3, 11, 2, -1, -1, -1, -1, -1, -1, -1],
   [9, 5, 7, 9, 7, 2, 9, 2, 0, 2, 7, 11, -1, -1, -1, -1],
   [2, 3, 11, 0, 1, 8, 1, 7, 8, 1, 5, 7, -1, -1, -1, -1],
   [11, 2, 1, 11, 1, 7, 7, 1, 5, -1, -1, -1, -1, -1, -1, -1],
   [9, 5, 8, 8, 5, 7, 10, 1, 3, 10, 3, 11, -1, -1, -1, -1],
   [5, 7, 0, 5, 0, 9, 7, 11, 0, 1, 0, 10, 11, 10, 0, -1],
   [11, 10, 0, 11, 0, 3, 10, 5, 0, 8, 0, 7, 5, 7, 0, -1],
   [11, 10, 5, 7, 11, 5, -1, -1, -1, -1, -1, -1, -1, -1, -1, -1]]

/-- Rows 64-79 of `triTable_array`. -/
def triRows4 : List (List Int) :=
  [[10, 6, 5, -1, -1, -1, -1, -1, -1, -1, -1, -1, -1, -1, -1, -1],
   [0, 8, 3, 5, 10, 6, -1, -1, -1, -1, -1, -1, -1, -1, -1, -1],
   [9, 0, 1, 5, 10, 6, -1, -1, -1, -1, -1, -1, -1, -1, -1, -1],
   [1, 8, 3, 1, 9, 8, 5, 10, 6, -1, -1, -1, -1, -1, -1, -1],
   [1, 6, 5, 2, 6, 1, -1, -1, -1, -1, -1, -1, -1, -1, -1, -1],
   [1, 6, 5, 1, 2, 6, 3, 0, 8, -1, -1, -1, -1, -1, -1, -1],
   [9, 6, 5, 9, 0, 6, 0, 2, 6, -1, -1, -1, -1, -1, -1, -1],
   [5, 9, 8, 5, 8, 2, 5, 2, 6, 3, 2, 8, -1, -1, -1, -1],
   [2, 3, 11, 10, 6, 5, -1, -1, -1, -1, -1, -1, -1, -1, -1, -1],
   [11, 0, 8, 11, 2, 0, 10, 6, 5, -1, -1, -1, -1, -1, -1, -1],
   [0, 1, 9, 2, 3, 11, 5, 10, 6, -1, -1, -1, -1, -1, -1, -1],
   [5, 10, 6, 1, 9, 2, 9, 11, 2, 9, 8, 11, -1, -1, -1, -1],
   [6, 3, 11, 6, 5, 3, 5, 1, 3, -1, -1, -1, -1, -1, -1, -1],
   [0, 8, 11, 0, 11, 5, 0, 5, 1, 5, 11, 6, -1, -1, -1, -1],
   [3, 11, 6, 0, 3, 6, 0, 6, 5, 0, 5, 9, -1, -1, -1, -1],
   [6, 5, 9, 6, 9, 11, 11, 9, 8, -1, -1, -1, -1, -1, -1, -1]]

/-- Rows 80-95 of `triTable_array`. -/
def triRows5 : List (List Int) :=
  [[5, 10, 6, 4, 7, 8, -1, -1, -1, -1, -1, -1, -1, -1, -1, -1],
   [4, 3, 0, 4, 7, 3, 6, 5, 10, -1, -1, -1, -1, -1, -1, -1],
   [1, 9, 0, 5, 10, 6, 8, 4, 7, -1, -1, -1, -1, -1, -1, -1],
   [10, 6, 5, 1, 9, 7, 1, 7, 3, 7, 9, 4, -1, -1, -1, -1],
   [6, 1, 2, 6, 5, 1, 4, 7, 8, -1, -1, -1, -1, -1, -1, -1],
   [1, 2, 5, 5, 2, 6, 3, 0, 4, 3, 4, 7, -1, -1, -1, -1],
   [8, 4, 7, 9, 0, 5, 0, 6, 5, 0, 2, 6, -1, -1, -1, -1],
   [7, 3, 9, 7, 9, 4, 3, 2, 9, 5, 9, 6, 2, 6, 9, -1],
   [3, 11, 2, 7, 8, 4, 10, 6, 5, -1, -1, -1, -1, -1, -1, -1],
   [5, 10, 6, 4, 7, 2, 4, 2, 0, 2, 7, 11, -1, -1, -1, -1],
   [0, 1, 9, 4, 7, 8, 2, 3, 11, 5, 10, 6, -1, -1, -1, -1],
   [9, 2, 1, 9, 11, 2, 9, 4, 11, 7, 11, 4, 5, 10, 6, -1],
   [8, 4, 7, 3, 11, 5, 3, 5, 1, 5, 11, 6, -1, -1, -1, -1],
   [5, 1, 11, 5, 11, 6, 1, 0, 11, 7, 11, 4, 0, 4, 11, -1],
   [0, 5, 9, 0, 6, 5, 0, 3, 6, 11, 6, 3, 8, 4, 7, -1],
   [6, 5, 9, 6, 9, 11, 4, 7, 9, 7, 11, 9, -1, -1, -1, -1]]

/-- Rows 96-111 of `triTable_array`. -/
def triRows6 : List (List Int) :=
  [[10, 4, 9, 6, 4, 10, -1, -1, -1, -1, -1, -1, -1, -1, -1, -1],
   [4, 10, 6, 4, 9, 10, 0, 8, 3, -1, -1, -1, -1, -1, -1, -1],
   [10, 0, 1, 10, 6, 0, 6, 4, 0, -1, -1, -1, -1, -1, -1, -1],
   [8, 3, 1, 8, 1, 6, 8, 6, 4, 6, 1, 10, -1, -1, -1, -1],
   [1, 4, 9, 1, 2, 4, 2, 6, 4, -1, -1, -1, -1, -1, -1, -1],
   [3, 0, 8, 1, 2, 9, 2, 4, 9, 2, 6, 4, -1, -1, -1, -1],
   [0, 2, 4, 4, 2, 6, -1, -1, -1, -1, -1, -1, -1, -1, -1, -1],
   [8, 3, 2, 8, 2, 4, 4, 2, 6, -1, -1, -1, -1, -1, -1, -1],
   [10, 4, 9, 10, 6, 4, 11, 2, 3, -1, -1, -1, -1, -1, -1, -1],
   [0, 8, 2, 2, 8, 11, 4, 9, 10, 4, 10, 6, -1, -1, -1, -1],
   [3, 11, 2, 0, 1, 6, 0, 6, 4, 6, 1, 10, -1, -1, -1, -1],
   [6, 4, 1, 6, 1, 10, 4, 8, 1, 2, 1, 11, 8, 11, 1, -1],
   [9, 6, 4, 9, 3, 6, 9, 1, 3, 11, 6, 3, -1, -1, -1, -1],
   [8, 11, 1, 8, 1, 0, 11, 6, 1, 9, 1, 4, 6, 4, 1, -1],
   [3, 11, 6, 3, 6, 0, 0, 6, 4, -1, -1, -1, -1, -1, -1, -1],
   [6, 4, 8, 11, 6, 8, -1, -1, -1, -1, -1, -1, -1, -1, -1, -1]]

/-- Rows 112-127 of `triTable_array`. -/
def triRows7 : List (List Int) :=
  [[7, 10, 6, 7, 8, 10, 8, 9, 10, -1, -1, -1, -1, -1, -1, -1],
   [0, 7, 3, 0, 10, 7, 0, 9, 10, 6, 7, 10, -1, -1, -1, -1],
   [10, 6, 7, 1, 10, 7, 1, 7, 8, 1, 8, 0, -1, -1, -1, -1],
   [10, 6, 7, 10, 7, 1, 1, 7, 3, -1, -1, -1, -1, -1, -1, -1],
   [1, 2, 6, 1, 6, 8, 1, 8, 9, 8, 6, 7, -1, -1, -1, -1],
   [2, 6, 9, 2, 9, 1, 6, 7, 9, 0, 9, 3, 7, 3, 9, -1],
   [7, 8, 0, 7, 0, 6, 6, 0, 2, -1, -1, -1, -1, -1, -1, -1],
   [7, 3, 2, 6, 7, 2, -1, -1, -1, -1, -1, -1, -1, -1, -1, -1],
   [2, 3, 11, 10, 6, 8, 10, 8, 9, 8, 6, 7, -1, -1, -1, -1],
   [2, 0, 7, 2, 7, 11, 0, 9, 7, 6, 7, 10, 9, 10, 7, -1],
   [1, 8, 0, 1, 7, 8, 1, 10, 7, 6, 7, 10, 2, 3, 11, -1],
   [11, 2, 1, 11, 1, 7, 10, 6, 1, 6, 7, 1, -1, -1, -1, -1],
   [8, 9, 6, 8, 6, 7, 9, 1, 6, 11, 6, 3, 1, 3, 6, -1],
   [0, 9, 1, 11, 6, 7, -1, -1, -1, -1, -1, -1, -1, -1, -1, -1],
   [7, 8, 0, 7, 0, 6, 3, 11, 0, 11, 6, 0, -1, -1, -1, -1],
   [7, 11, 6, -1, -1, -1, -1, -1, -1, -1, -1, -1, -1, -1, -1, -1]]

/-- Rows 128-143 of `triTable_array`. -/
def triRows8 : List (List Int) :=
  [[7, 6, 11, -1, -1, -1, -1, -1, -1, -1, -1, -1, -1, -1, -1, -1],
   [3, 0, 8, 11, 7, 6, -1, -1, -1, -1, -1, -1, -1, -1, -1, -1],
   [0, 1, 9, 11, 7, 6, -1, -1, -1, -1, -1, -1, -1, -1, -1, -1],
   [8, 1, 9, 8, 3, 1, 11, 7, 6, -1, -1, -1, -1, -1, -1, -1],
   [10, 1, 2, 6, 11, 7, -1, -1, -1, -1, -1, -1, -1, -1, -1, -1],
   [1, 2, 10, 3, 0, 8, 6, 11, 7, -1, -1, -1, -1, -1, -1, -1],
   [2, 9, 0, 2, 10, 9, 6, 11, 7, -1, -1, -1, -1, -1, -1, -1],
   [6, 11, 7, 2, 10, 3, 10, 8, 3, 10, 9, 8, -1, -1, -1, -1],
   [7, 2, 3, 6, 2, 7, -1, -1, -1, -1, -1, -1, -1, -1, -1, -1],
   [7, 0, 8, 7, 6, 0, 6, 2, 0, -1, -1, -1, -1, -1, -1, -1],
   [2, 7, 6, 2, 3, 7, 0, 1, 9, -1, -1, -1, -1, -1, -1, -1],
   [1, 6, 2, 1, 8, 6, 1, 9, 8, 8, 7, 6, -1, -1, -1, -1],
   [10, 7, 6, 10, 1, 7, 1, 3, 7, -1, -1, -1, -1, -1, -1, -1],
   [10, 7, 6, 1, 7, 10, 1, 8, 7, 1, 0, 8, -1, -1, -1, -1],
   [0, 3, 7, 0, 7, 10, 0, 10, 9, 6, 10, 7, -1, -1, -1, -1],
   [7, 6, 10, 7, 10, 8, 8, 10, 9, -1, -1, -1, -1, -1, -1, -1]]

/-- Rows 144-159 of `triTable_array`. -/
def triRows9 : List (List Int) :=
  [[6, 8, 4, 11, 8, 6, -1, -1, -1, -1, -1, -1, -1, -1, -1, -1],
   [3, 6, 11, 3, 0, 6, 0, 4, 6, -1, -1, -1, -1, -1, -1, -1],
   [8, 6, 11, 8, 4, 6, 9, 0, 1, -1, -1, -1, -1, -1, -1, -1],
   [9, 4, 6, 9, 6, 3, 9, 3, 1, 11, 3, 6, -1, -1, -1, -1],
   [6, 8, 4, 6, 11, 8, 2, 10, 1, -1, -1, -1, -1, -1, -1, -1],
   [1, 2, 10, 3, 0, 11, 0, 6, 11, 0, 4, 6, -1, -1, -1, -1],
   [4, 11, 8, 4, 6, 11, 0, 2, 9, 2, 10, 9, -1, -1, -1, -1],
   [10, 9, 3, 10, 3, 2, 9, 4, 3, 11, 3, 6, 4, 6, 3, -1],
   [8, 2, 3, 8, 4, 2, 4, 6, 2, -1, -1, -1, -1, -1, -1, -1],
   [0, 4, 2, 4, 6, 2, -1, -1, -1, -1, -1, -1, -1, -1, -1, -1],
   [1, 9, 0, 2, 3, 4, 2, 4, 6, 4, 3, 8, -1, -1, -1, -1],
   [1, 9, 4, 1, 4, 2, 2, 4, 6, -1, -1, -1, -1, -1, -1, -1],
   [8, 1, 3, 8, 6, 1, 8, 4, 6, 6, 10, 1, -1, -1, -1, -1],
   [10, 1, 0, 10, 0, 6, 6, 0, 4, -1, -1, -1, -1, -1, -1, -1],
   [4, 6, 3, 4, 3, 8, 6, 10, 3, 0, 3, 9, 10, 9, 3, -1],
   [10, 9, 4, 6, 10, 4, -1, -1, -1, -1, -1, -1, -1, -1, -1, -1]]

/-- Rows 160-175 of `triTable_array`. -/
def triRows10 : List (List Int) :=
  [[4, 9, 5, 7, 6, 11, -1, -1, -1, -1, -1, -1, -1, -1, -1, -1],
   [0, 8, 3, 4, 9, 5, 11, 7, 6, -1, -1, -1, -1, -1, -1, -1],
   [5, 0, 1, 5, 4, 0, 7, 6, 11, -1, -1, -1, -1, -1, -1, -1],
   [11, 7, 6, 8, 3, 4, 3, 5, 4, 3, 1, 5, -1, -1, -1, -1],
   [9, 5, 4, 10, 1, 2, 7, 6, 11, -1, -1, -1, -1, -1, -1, -1],
   [6, 11, 7, 1, 2, 10, 0, 8, 3, 4, 9, 5, -1, -1, -1, -1],
   [7, 6, 11, 5, 4, 10, 4, 2, 10, 4, 0, 2, -1, -1, -1, -1],
   [3, 4, 8, 3, 5, 4, 3, 2, 5, 10, 5, 2, 11, 7, 6, -1],
   [7, 2, 3, 7, 6, 2, 5, 4, 9, -1, -1, -1, -1, -1, -1, -1],
   [9, 5, 4, 0, 8, 6, 0, 6, 2, 6, 8, 7, -1, -1, -1, -1],
   [3, 6, 2, 3, 7, 6, 1, 5, 0, 5, 4, 0, -1, -1, -1, -1],
   [6, 2, 8, 6, 8, 7, 2, 1, 8, 4, 8, 5, 1, 5, 8, -1],
   [9, 5, 4, 10, 1, 6, 1, 7, 6, 1, 3, 7, -1, -1, -1, -1],
   [1, 6, 10, 1, 7, 6, 1, 0, 7, 8, 7, 0, 9, 5, 4, -1],
   [4, 0, 10, 4, 10, 5, 0, 3, 10, 6, 10, 7, 3, 7, 10, -1],
   [7, 6, 10, 7, 10, 8, 5, 4, 10, 4, 8, 10, -1, -1, -1, -1]]

/-- Rows 176-191 of `triTable_array`. -/
def triRows11 : List (List Int) :=
  [[6, 9, 5, 6, 11, 9, 11, 8, 9, -1, -1, -1, -1, -1, -1, -1],
   [3, 6, 11, 0, 6, 3, 0, 5, 6, 0, 9, 5, -1, -1, -1, -1],
   [0, 11, 8, 0, 5, 11, 0, 1, 5, 5, 6, 11, -1, -1, -1, -1],
   [6, 11, 3, 6, 3, 5, 5, 3, 1, -1, -1, -1, -1, -1, -1, -1],
   [1, 2, 10, 9, 5, 11, 9, 11, 8, 11, 5, 6, -1, -1, -1, -1],
   [0, 11, 3, 0, 6, 11, 0, 9, 6, 5, 6, 9, 1, 2, 10, -1],
   [11, 8, 5, 11, 5, 6, 8, 0, 5, 10, 5, 2, 0, 2, 5, -1],
   [6, 11, 3, 6, 3, 5, 2, 10, 3, 10, 5, 3, -1, -1, -1, -1],
   [5, 8, 9, 5, 2, 8, 5, 6, 2, 3, 8, 2, -1, -1, -1, -1],
   [9, 5, 6, 9, 6, 0, 0, 6, 2, -1, -1, -1, -1, -1, -1, -1],
   [1, 5, 8, 1, 8, 0, 5, 6, 8, 3, 8, 2, 6, 2, 8, -1],
   [1, 5, 6, 2, 1, 6, -1, -1, -1, -1, -1, -1, -1, -1, -1, -1],
   [1, 3, 6, 1, 6, 10, 3, 8, 6, 5, 6, 9, 8, 9, 6, -1],
   [10, 1, 0, 10, 0, 6, 9, 5, 0, 5, 6, 0, -1, -1, -1, -1],
   [0, 3, 8, 5, 6, 10, -1, -1, -1, -1, -1, -1, -1, -1, -1, -1],
   [10, 5, 6, -1, -1, -1, -1, -1, -1, -1, -1, -1, -1, -1, -1, -1]]

/-- Rows 192-207 of `triTable_array`. -/
def triRows12 : List (List Int) :=
  [[11, 5, 10, 7, 5, 11, -1, -1, -1, -1, -1, -1, -1, -1, -1, -1],
   [11, 5, 10, 11, 7, 5, 8, 3, 0, -1, -1, -1, -1, -1, -1, -1],
   [5, 11, 7, 5, 10, 11, 1, 9, 0, -1, -1, -1, -1, -1, -1, -1],
   [10, 7, 5, 10, 11, 7, 9, 8, 1, 8, 3, 1, -1, -1, -1, -1],
   [11, 1, 2, 11, 7, 1, 7, 5, 1, -1, -1, -1, -1, -1, -1, -1],
   [0, 8, 3, 1, 2, 7, 1, 7, 5, 7, 2, 11, -1, -1, -1, -1],
   [9, 7, 5, 9, 2, 7, 9, 0, 2, 2, 11, 7, -1, -1, -1, -1],
   [7, 5, 2, 7, 2, 11, 5, 9, 2, 3, 2, 8, 9, 8, 2, -1],
   [2, 5, 10, 2, 3, 5, 3, 7, 5, -1, -1, -1, -1, -1, -1, -1],
   [8, 2, 0, 8, 5, 2, 8, 7, 5, 10, 2, 5, -1, -1, -1, -1],
   [9, 0, 1, 5, 10, 3, 5, 3, 7, 3, 10, 2, -1, -1, -1, -1],
   [9, 8, 2, 9, 2, 1, 8, 7, 2, 10, 2, 5, 7, 5, 2, -1],
   [1, 3, 5, 3, 7, 5, -1, -1, -1, -1, -1, -1, -1, -1, -1, -1],
   [0, 8, 7, 0, 7, 1, 1, 7, 5, -1, -1, -1, -1, -1, -1, -1],
   [9, 0, 3, 9, 3, 5, 5, 3, 7, -1, -1, -1, -1, -1, -1, -1],
   [9, 8, 7, 5, 9, 7, -1, -1, -1, -1, -1, -1, -1, -1, -1, -1]]

/-- Rows 208-223 of `triTable_array`. -/
def triRows13 : List (List Int) :=
  [[5, 8, 4, 5, 10, 8, 10, 11, 8, -1, -1, -1, -1, -1, -1, -1],
   [5, 0, 4, 5, 11, 0, 5, 10, 11, 11, 3, 0, -1, -1, -1, -1],
   [0, 1, 9, 8, 4, 10, 8, 10, 11, 10, 4, 5, -1, -1, -1, -1],
   [10, 11, 4, 10, 4, 5, 11, 3, 4, 9, 4, 1, 3, 1, 4, -1],
   [2, 5, 1, 2, 8, 5, 2, 11, 8, 4, 5, 8, -1, -1, -1, -1],
   [0, 4, 11, 0, 11, 3, 4, 5, 11, 2, 11, 1, 5, 1, 11, -1],
   [0, 2, 5, 0, 5, 9, 2, 11, 5, 4, 5, 8, 11, 8, 5, -1],
   [9, 4, 5, 2, 11, 3, -1, -1, -1, -1, -1, -1, -1, -1, -1, -1],
   [2, 5, 10, 3, 5, 2, 3, 4, 5, 3, 8, 4, -1, -1, -1, -1],
   [5, 10, 2, 5, 2, 4, 4, 2, 0, -1, -1, -1, -1, -1, -1, -1],
   [3, 10, 2, 3, 5, 10, 3, 8, 5, 4, 5, 8, 0, 1, 9, -1],
   [5, 10, 2, 5, 2, 4, 1, 9, 2, 9, 4, 2, -1, -1, -1, -1],
   [8, 4, 5, 8, 5, 3, 3, 5, 1, -1, -1, -1, -1, -1, -1, -1],
   [0, 4, 5, 1, 0, 5, -1, -1, -1, -1, -1, -1, -1, -1, -1, -1],
   [8, 4, 5, 8, 5, 3, 9, 0, 5, 0, 3, 5, -1, -1, -1, -1],
   [9, 4, 5, -1, -1, -1, -1, -1, -1, -1, -1, -1, -1, -1, -1, -1]]

/-- Rows 224-239 of `triTable_array`. -/
def triRows14 : List (List Int) :=
  [[4, 11, 7, 4, 9, 11, 9, 10, 11, -1, -1, -1, -1, -1, -1, -1],
   [0, 8, 3, 4, 9, 7, 9, 11, 7, 9, 10, 11, -1, -1, -1, -1],
   [1, 10, 11, 1, 11, 4, 1, 4, 0, 7, 4, 11, -1, -1, -1, -1],
   [3, 1, 4, 3, 4, 8, 1, 10, 4, 7, 4, 11, 10, 11, 4, -1],
   [4, 11, 7, 9, 11, 4, 9, 2, 11, 9, 1, 2, -1, -1, -1, -1],
   [9, 7, 4, 9, 11, 7, 9, 1, 11, 2, 11, 1, 0, 8, 3, -1],
   [11, 7, 4, 11, 4, 2, 2, 4, 0, -1, -1, -1, -1, -1, -1, -1],
   [11, 7, 4, 11, 4, 2, 8, 3, 4, 3, 2, 4, -1, -1, -1, -1],
   [2, 9, 10, 2, 7, 9, 2, 3, 7, 7, 4, 9, -1, -1, -1, -1],
   [9, 10, 7, 9, 7, 4, 10, 2, 7, 8, 7, 0, 2, 0, 7, -1],
   [3, 7, 10, 3, 10, 2, 7, 4, 10, 1, 10, 0, 4, 0, 10, -1],
   [1, 10, 2, 8, 7, 4, -1, -1, -1, -1, -1, -1, -1, -1, -1, -1],
   [4, 9, 1, 4, 1, 7, 7, 1, 3, -1, -1, -1, -1, -1, -1, -1],
   [4, 9, 1, 4, 1, 7, 0, 8, 1, 8, 7, 1, -1, -1, -1, -1],
   [4, 0, 3, 7, 4, 3, -1, -1, -1, -1, -1, -1, -1, -1, -1, -1],
   [4, 8, 7, -1, -1, -1, -1, -1, -1, -1, -1, -1, -1, -1, -1, -1]]

/-- Rows 240-255 of `triTable_array`. -/
def triRows15 : List (List Int) :=
  [[9, 10, 8, 10, 11, 8, -1, -1, -1, -1, -1, -1, -1, -1, -1, -1],
   [3, 0, 9, 3, 9, 11, 11, 9, 10, -1, -1, -1, -1, -1, -1, -1],
   [0, 1, 10, 0, 10, 8, 8, 10, 11, -1, -1, -1, -1, -1, -1, -1],
   [3, 1, 10, 11, 3, 10, -1, -1, -1, -1, -1, -1, -1, -1, -1, -1],
   [1, 2, 11, 1, 11, 9, 9, 11, 8, -1, -1, -1, -1, -1, -1, -1],
   [3, 0, 9, 3, 9, 11, 1, 2, 9, 2, 11, 9, -1, -1, -1, -1],
   [0, 2, 11, 8, 0, 11, -1, -1, -1, -1, -1, -1, -1, -1, -1, -1],
   [3, 2, 11, -1, -1, -1, -1, -1, -1, -1, -1, -1, -1, -1, -1, -1],
   [2, 3, 8, 2, 8, 10, 10, 8, 9, -1, -1, -1, -1, -1, -1, -1],
   [9, 10, 2, 0, 9, 2, -1, -1, -1, -1, -1, -1, -1, -1, -1, -1],
   [2, 3, 8, 2, 8, 10, 0, 1, 8, 1, 10, 8, -1, -1, -1, -1],
   [1, 10, 2, -1, -1, -1, -1, -1, -1, -1, -1, -1, -1, -1, -1, -1],
   [1, 3, 8, 9, 1, 8, -1, -1, -1, -1, -1, -1, -1, -1, -1, -1],
   [0, 9, 1, -1, -1, -1, -1, -1, -1, -1, -1, -1, -1, -1, -1, -1],
   [0, 3, 8, -1, -1, -1, -1, -1, -1, -1, -1, -1, -1, -1, -1, -1],
   [-1, -1, -1, -1, -1, -1, -1, -1, -1, -1, -1, -1, -1, -1, -1, -1]]

/-- Triangle edge-index table, transcribed row by row from
`marching_cube::triTable_array` (256 rows of 16 entries, sentinel -1). -/
def triTable_array : List (List Int) :=
  triRows0 ++ triRows1 ++ triRows2 ++ triRows3 ++ triRows4 ++ triRows5 ++
  triRows6 ++ triRows7 ++ triRows8 ++ triRows9 ++ triRows10 ++ triRows11 ++
  triRows12 ++ triRows13 ++ triRows14 ++ triRows15

/-- Entries 0-63 of `numVerticesTable_array`. -/
def nvRows0 : List Nat :=
  [0, 3, 3, 6, 3, 6, 6, 9, 3, 6, 6, 9, 6, 9, 9, 6, 3, 6, 6, 9, 6, 9, 9, 12, 6, 9, 9, 12, 9, 12, 12, 9, 3, 6, 6, 9, 6, 9, 9, 12, 6, 9, 9, 12, 9, 12, 12, 9, 6, 9, 9, 6, 9, 12, 12, 9, 9, 12, 12, 9, 12, 15, 15, 6]

/-- Entries 64-127 of `numVerticesTable_array`. -/
def nvRows1 : List Nat :=
  [3, 6, 6, 9, 6, 9, 9, 12, 6, 9, 9, 12, 9, 12, 12, 9, 6, 9, 9, 12, 9, 12, 12, 15, 9, 12, 12, 15, 12, 15, 15, 12, 6, 9, 9, 12, 9, 12, 6, 9, 9, 12, 12, 15, 12, 15, 9, 6, 9, 12, 12, 9, 12, 15, 9, 6, 12, 15, 15, 12, 15, 6, 12, 3]

/-- Entries 128-191 of `numVerticesTable_array`. -/
def nvRows2 : List Nat :=
  [3, 6, 6, 9, 6, 9, 9, 12, 6, 9, 9, 12, 9, 12, 12, 9, 6, 9, 9, 12, 9, 12, 12, 15, 9, 6, 12, 9, 12, 9, 15, 6, 6, 9, 9, 12, 9, 12, 12, 15, 9, 12, 12, 15, 12, 15, 15, 12, 9, 12, 12, 9, 12, 15, 15, 12, 12, 9, 15, 6, 15, 12, 6, 3]

/-- Entries 192-255 of `numVerticesTable_array`. -/
def nvRows3 : List Nat :=
  [6, 9, 9, 12, 9, 12, 12, 15, 9, 12, 12, 15, 6, 9, 9, 6, 9, 12, 12, 15, 12, 15, 15, 6, 12, 9, 15, 12, 9, 6, 12, 3, 9, 12, 12, 15, 12, 15, 9, 12, 12, 15, 15, 6, 9, 12, 6, 3, 6, 9, 9, 6, 9, 12, 6, 3, 9, 6, 12, 3, 6, 3, 3, 0]

/-- Per-case vertex count table, transcribed from
`marching_cube::numVerticesTable_array`. -/
def numVerticesTable_array : List Nat :=
  nvRows0 ++ nvRows1 ++ nvRows2 ++ nvRows3

/-- The fixed 24-entry edge-to-corner-pair table `verticesForEdge`
declared inside `isosurface_functor::operator()`. -/
def verticesForEdge : List Nat :=
  [0, 1, 1, 2, 3, 2, 0, 3,
   4, 5, 5, 6, 7, 6, 4, 7,
   0, 4, 1, 5, 2, 6, 3, 7]

/-- A regular 3-D grid of scalar samples: the three dimensions
(`dim0`, `dim1`, `dim2` of the input data set) and the point-data
accessor (`point_data_begin()`), modelled as a total function from the
linear point index to a rational sample value. -/
structure Grid where
  dim0 : Nat
  dim1 : Nat
  dim2 : Nat
  data : Nat → ℚ

/-- Modelled from the spec: `NCells` is a field of the input data set
(`image3d`, not among the sources); spec §3 defines total cells as
`(dim0−1)·(dim1−1)·(dim2−1)`. -/
def Grid.NCells (g : Grid) : Nat := (g.dim0 - 1) * (g.dim1 - 1) * (g.dim2 - 1)

/-- `cells_per_layer = (xdim - 1) * (ydim - 1)` from `classify_cell`. -/
def Grid.cellsPerLayer (g : Grid) : Nat := (g.dim0 - 1) * (g.dim1 - 1)

/-- `points_per_layer = xdim * ydim` from `classify_cell`. -/
def Grid.pointsPerLayer (g : Grid) : Nat := g.dim0 * g.dim1

/-- The eight corner point indices `i0 .. i7` of cell `cellId`: the index
arithmetic of `classify_cell::operator()`, repeated verbatim in
`isosurface_functor::operator()`
(`x = id % (xdim-1)`, `y = (id / (xdim-1)) % (ydim-1)`,
`z = id / cells_per_layer`, `i0 = x + y*xdim + z*points_per_layer`,
`i1 = i0+1`, `i2 = i0+1+xdim`, `i3 = i0+xdim`, `i4..i7 = i0..i3 + points_per_layer`). -/
def cornerIndex (g : Grid) (cellId k : Nat) : Nat :=
  let x := cellId % (g.dim0 - 1)
  let y := (cellId / (g.dim0 - 1)) % (g.dim1 - 1)
  let z := cellId / g.cellsPerLayer
  let i0 := x + y * g.dim0 + z * g.pointsPerLayer
  match k with
  | 0 => i0
  | 1 => i0 + 1
  | 2 => i0 + 1 + g.dim0
  | 3 => i0 + g.dim0
  | 4 => i0 + g.pointsPerLayer
  | 5 => i0 + 1 + g.pointsPerLayer
  | 6 => i0 + 1 + g.dim0 + g.pointsPerLayer
  | _ => i0 + g.dim0 + g.pointsPerLayer

/-- The scalar sample `f[k] = *(point_data + i[k])` at corner `k`. -/
def cornerSample (g : Grid) (cellId k : Nat) : ℚ :=
  g.data (cornerIndex g cellId k)

/-- The C++ bool-to-int conversion of `(f > isovalue)` used when the
comparison results are accumulated into `cubeindex`. -/
def aboveBit (f iso : ℚ) : Nat := if iso < f then 1 else 0

/-- The `cubeindex` accumulation of `classify_cell::operator()`:
`(f0 > isovalue) + (f1 > isovalue)*2 + ... + (f7 > isovalue)*128`. -/
def cubeIndex (g : Grid) (iso : ℚ) (cellId : Nat) : Nat :=
  aboveBit (cornerSample g cellId 0) iso
  + aboveBit (cornerSample g cellId 1) iso * 2
  + aboveBit (cornerSample g cellId 2) iso * 4
  + aboveBit (cornerSample g cellId 3) iso * 8
  + aboveBit (cornerSample g cellId 4) iso * 16
  + aboveBit (cornerSample g cellId 5) iso * 32
  + aboveBit (cornerSample g cellId 6) iso * 64
  + aboveBit (cornerSample g cellId 7) iso * 128

/-- `classify_cell::operator()`: maps a cell id to the pair
`(cubeindex, numVertsTable[cubeindex])`.  The functor stores the
`discardMinVals` flag, but its only use (the `valid` computation) is
commented out in the source, so the flag is never read. -/
def classify_cell (g : Grid) (iso : ℚ) (discardMinVals : Bool) (cellId : Nat) :
    Nat × Nat :=
  let c := cubeIndex g iso cellId
  (c, numVerticesTable_array.getD c 0)

/-- `is_valid_cell`: a cell is valid iff it emits a nonzero number of
vertices. -/
def is_valid_cell (numVertices : Nat) : Bool := numVertices != 0

/-- `thrust::transform_inclusive_scan`'s plus-scan semantics: output
element `j` is the sum of input elements `0 .. j`. -/
def inclusive_scan (l : List Nat) : List Nat :=
  (List.range l.length).map (fun j => (l.take (j + 1)).sum)

/-- `thrust::exclusive_scan`'s plus-scan semantics (initial value 0):
output element `j` is the sum of input elements `0 .. j-1`. -/
def exclusive_scan (l : List Nat) : List Nat :=
  (List.range l.length).map (fun j => (l.take j).sum)

/-- `thrust::upper_bound` on a sorted (non-decreasing) range: the index of
the first element strictly greater than the search value, or the length
of the range when no element exceeds it. -/
def upper_bound (l : List Nat) (v : Nat) : Nat := l.findIdx (fun x => v < x)

/-- The classification pass (`thrust::transform` over cell ids
`0 .. NCells`): the `num_vertices` component. -/
def num_vertices_list (g : Grid) (iso : ℚ) (flag : Bool) : List Nat :=
  (List.range g.NCells).map (fun id => (classify_cell g iso flag id).2)

/-- The classification pass: the `case_index` component. -/
def case_index_list (g : Grid) (iso : ℚ) (flag : Bool) : List Nat :=
  (List.range g.NCells).map (fun id => (classify_cell g iso flag id).1)

/-- `valid_cell_enum`: inclusive plus-scan of the 0/1 validity indicator
(`is_valid_cell` composed with the bool-to-int conversion). -/
def valid_cell_enum (g : Grid) (iso : ℚ) (flag : Bool) : List Nat :=
  inclusive_scan ((num_vertices_list g iso flag).map
    (fun n => if is_valid_cell n then 1 else 0))

/-- `num_valid_cells = valid_cell_enum.back()` (the code reads `back()`
unconditionally; the enumeration is nonempty whenever `NCells > 0`). -/
def num_valid_cells (g : Grid) (iso : ℚ) (flag : Bool) : Nat :=
  (valid_cell_enum g iso flag).getLastD 0

/-- `valid_cell_indices`: `thrust::upper_bound` of each target rank
`0 .. num_valid_cells` against the enumeration. -/
def valid_cell_indices (g : Grid) (iso : ℚ) (flag : Bool) : List Nat :=
  (List.range (num_valid_cells g iso flag)).map
    (upper_bound (valid_cell_enum g iso flag))

/-- The vertex counts of the valid cells in compacted order (the
permutation iterator `num_vertices[valid_cell_indices[j]]`). -/
def valid_counts (g : Grid) (iso : ℚ) (flag : Bool) : List Nat :=
  (valid_cell_indices g iso flag).map
    (fun i => (num_vertices_list g iso flag).getD i 0)

/-- `output_vertices_enum`: exclusive plus-scan of the valid cells'
vertex counts. -/
def output_vertices_enum (g : Grid) (iso : ℚ) (flag : Bool) : List Nat :=
  exclusive_scan (valid_counts g iso flag)

/-- `num_total_vertices = num_vertices[valid_cell_indices.back()] +
output_vertices_enum.back()`. -/
def num_total_vertices (g : Grid) (iso : ℚ) (flag : Bool) : Nat :=
  (num_vertices_list g iso flag).getD ((valid_cell_indices g iso flag).getLastD 0) 0
  + (output_vertices_enum g iso flag).getLastD 0

/-- `triangle_table[cubeindex*16 + v]`, read through the row structure of
the table (row `cubeindex`, entry `v`; sentinel -1 outside the table). -/
def triEdge (c v : Nat) : Int := (triTable_array.getD c []).getD v (-1)

/-- `v0 = verticesForEdge[2*edge]` in `isosurface_functor::operator()`. -/
def edgeEnd0 (e : Nat) : Nat := verticesForEdge.getD (2 * e) 0

/-- `v1 = verticesForEdge[2*edge + 1]` in `isosurface_functor::operator()`. -/
def edgeEnd1 (e : Nat) : Nat := verticesForEdge.getD (2 * e + 1) 0

/-- The interpolation factor `t = (isovalue - f[v0]) / (f[v1] - f[v0])`
computed by `isosurface_functor::operator()` for output slot `v` of the
given cell (the cell's case index is recomputed as the generator receives
it from the classification pass). -/
def interpFactor (g : Grid) (iso : ℚ) (cellId v : Nat) : ℚ :=
  let e := (triEdge (cubeIndex g iso cellId) v).toNat
  (iso - cornerSample g cellId (edgeEnd0 e))
    / (cornerSample g cellId (edgeEnd1 e) - cornerSample g cellId (edgeEnd0 e))

/-- The interpolation denominator `f[v1] - f[v0]` of the division
computing `t` in `isosurface_functor::operator()`. -/
def interpDenom (g : Grid) (iso : ℚ) (cellId v : Nat) : ℚ :=
  let e := (triEdge (cubeIndex g iso cellId) v).toNat
  cornerSample g cellId (edgeEnd1 e) - cornerSample g cellId (edgeEnd0 e)

/-- Indices written by the vertex-interpolation loop of
`isosurface_functor::operator()` for a cell with output offset `off` and
`numVertices = cnt`: `outputVertId + v` for `v = 0 .. cnt-1`. -/
def vertexWriteIndices (off cnt : Nat) : List Nat :=
  (List.range cnt).map (fun v => off + v)

/-- Indices written by the normal-generation loop of
`isosurface_functor::operator()`: `v` ranges over `0, 3, 6, ...` below
`cnt` and the loop writes `off + v`, `off + v + 1`, `off + v + 2`. -/
def normalWriteIndices (off cnt : Nat) : List Nat :=
  ((List.range cnt).filter (fun v => v % 3 = 0)).flatMap
    (fun v => [off + v, off + v + 1, off + v + 2])

/-- Modelled from the spec: `lerp` comes from piston_math.h (not among the
sources); §4.4 prescribes linear interpolation of the two corner positions
by `t`, i.e. `p0 + t*(p1 - p0)`, componentwise. -/
def lerp3 (p0 p1 : ℚ × ℚ × ℚ) (t : ℚ) : ℚ × ℚ × ℚ :=
  (p0.1 + t * (p1.1 - p0.1),
   p0.2.1 + t * (p1.2.1 - p0.2.1),
   p0.2.2 + t * (p1.2.2 - p0.2.2))

/-- The position written for output slot `v` of a cell:
`make_float4(vertex_interp(p[v0], p[v1], t), 1.0f)`.  The physical
coordinate accessor `co` stands for `physical_coordinates_begin()` of the
input data set. -/
def vertexOut (g : Grid) (co : Nat → ℚ × ℚ × ℚ) (iso : ℚ) (cellId v : Nat) :
    (ℚ × ℚ × ℚ) × ℚ :=
  let e := (triEdge (cubeIndex g iso cellId) v).toNat
  (lerp3 (co (cornerIndex g cellId (edgeEnd0 e)))
         (co (cornerIndex g cellId (edgeEnd1 e)))
         (interpFactor g iso cellId v), 1)

/-- Componentwise difference of two rational 3-vectors. -/
def sub3 (a b : ℚ × ℚ × ℚ) : ℚ × ℚ × ℚ :=
  (a.1 - b.1, a.2.1 - b.2.1, a.2.2 - b.2.2)

/-- `cross(edge0, edge1)` from the normal-generation loop. -/
def cross3 (a b : ℚ × ℚ × ℚ) : ℚ × ℚ × ℚ :=
  (a.2.1 * b.2.2 - a.2.2 * b.2.1,
   a.2.2 * b.1 - a.1 * b.2.2,
   a.1 * b.2.1 - a.2.1 * b.1)

/-- The vertices emitted by one valid cell, in output-slot order. -/
def cellVerts (g : Grid) (co : Nat → ℚ × ℚ × ℚ) (iso : ℚ) (cellId cnt : Nat) :
    List ((ℚ × ℚ × ℚ) × ℚ) :=
  (List.range cnt).map (vertexOut g co iso cellId)

/-- The un-normalized normal direction of each triangle of one valid cell:
`cross(vertex[1] - vertex[0], vertex[2] - vertex[0])` for each vertex
triple (the code then assigns `normalize` of this direction to all three
vertices of the triangle; `normalize` is a deterministic function of this
direction, which the rational model keeps un-normalized). -/
def cellNormalDirs (g : Grid) (co : Nat → ℚ × ℚ × ℚ) (iso : ℚ) (cellId cnt : Nat) :
    List (ℚ × ℚ × ℚ) :=
  ((List.range cnt).filter (fun v => v % 3 = 0)).map (fun v =>
    cross3
      (sub3 (vertexOut g co iso cellId (v + 1)).1 (vertexOut g co iso cellId v).1)
      (sub3 (vertexOut g co iso cellId (v + 2)).1 (vertexOut g co iso cellId v).1))

/-- The complete observable output of one extraction: the classification
arrays, the compaction results, the total vertex count, and the geometry
pass's vertices and triangle normal directions laid out in output order
(the per-cell write ranges are consecutive and disjoint, so the flat
output arrays are the concatenation over valid cells in compacted order). -/
structure ExtractionOutput where
  caseIdx : List Nat
  counts : List Nat
  validIdx : List Nat
  offsets : List Nat
  total : Nat
  verts : List ((ℚ × ℚ × ℚ) × ℚ)
  normalDirs : List (ℚ × ℚ × ℚ)

/-- One full extraction (`marching_cube::operator()` followed by reading
the outputs), as a function of the input field, the physical-coordinate
accessor, the isovalue and the `discardMinVals` flag. -/
def extraction_output (g : Grid) (co : Nat → ℚ × ℚ × ℚ) (iso : ℚ) (flag : Bool) :
    ExtractionOutput :=
  { caseIdx := case_index_list g iso flag
    counts := num_vertices_list g iso flag
    validIdx := valid_cell_indices g iso flag
    offsets := output_vertices_enum g iso flag
    total := num_total_vertices g iso flag
    verts := (valid_cell_indices g iso flag).flatMap (fun cid =>
      cellVerts g co iso cid ((num_vertices_list g iso flag).getD cid 0))
    normalDirs := (valid_cell_indices g iso flag).flatMap (fun cid =>
      cellNormalDirs g co iso cid ((num_vertices_list g iso flag).getD cid 0)) }

/-- The mutable surface state observable across runs of
`marching_cube::operator()`: the sizes of the `vertices` and `normals`
containers and the `num_total_vertices` member (an `unsigned int` that the
constructor never initializes). -/
structure MCState where
  vertices_len : Nat
  normals_len : Nat
  total_vertices : Nat
  deriving DecidableEq

/-- The single undefined-behavior point the orchestrator can reach: with
`NCells = 0` the enumeration vector is empty and the code reads
`valid_cell_enum.back()` on it. -/
inductive Fault where
  | backOnEmptyEnum
  deriving DecidableEq

/-- One run of `marching_cube::operator()` as a state transition.  The code
performs no validation of the input dimensions: it resizes the per-cell
arrays, runs the classification transform and the inclusive scan over the
(possibly empty) cell range, and then unconditionally reads
`valid_cell_enum.back()` — undefined behavior when `NCells = 0`, modelled
as the `backOnEmptyEnum` fault.  When no cell is valid it clears the
output vectors and returns early, leaving `num_total_vertices` unchanged;
otherwise it resizes both outputs to `num_total_vertices` and assigns the
member. -/
def run_extraction (g : Grid) (iso : ℚ) (flag : Bool) (s : MCState) :
    Except Fault MCState :=
  if g.NCells = 0 then
    Except.error Fault.backOnEmptyEnum
  else if num_valid_cells g iso flag = 0 then
    Except.ok { s with vertices_len := 0, normals_len := 0 }
  else
    let total := num_total_vertices g iso flag
    Except.ok { vertices_len := total, normals_len := total, total_vertices := total }

/-- The single-cell grid of spec §8's concrete scenario: a 2×2×2 point
grid whose bottom-face points (linear indices 0-3) sample 0 and whose
top-face points (indices 4-7) sample 1. -/
def demoGrid : Grid :=
  { dim0 := 2, dim1 := 2, dim2 := 2, data := fun i => if i < 4 then 0 else 1 }

/-- A degenerate grid with `dim0 = 1 < 2` (two points along y and z). -/
def flatGrid : Grid :=
  { dim0 := 1, dim1 := 2, dim2 := 2, data := fun _ => 0 }

/-- Spec-side corner arithmetic, written from the words of claim C8: the
8 corners are the points at offsets `{0, +1, +1+dim0, +dim0}` and the same
four plus `dim0*dim1`, from base index `x + y*dim0 + z*dim0*dim1` with
`x = id mod (dim0-1)`, `y = (id div (dim0-1)) mod (dim1-1)`,
`z = id div ((dim0-1)*(dim1-1))`. -/
def specCorner (g : Grid) (id k : Nat) : Nat :=
  let x := id % (g.dim0 - 1)
  let y := (id / (g.dim0 - 1)) % (g.dim1 - 1)
  let z := id / ((g.dim0 - 1) * (g.dim1 - 1))
  let base := x + y * g.dim0 + z * (g.dim0 * g.dim1)
  let off : Nat := match k % 4 with
    | 0 => 0
    | 1 => 1
    | 2 => 1 + g.dim0
    | _ => g.dim0
  if k < 4 then base + off else base + off + g.dim0 * g.dim1

/-- Spec-side case index, written from the words of claim C8: bit `k` is
set iff the scalar sample at corner `k` strictly exceeds the isovalue. -/
def specCaseIndex (g : Grid) (iso : ℚ) (id : Nat) : Nat :=
  ∑ k ∈ Finset.range 8, if iso < g.data (specCorner g id k) then 2 ^ k else 0

/-- Spec-side compacted cell list, written from the words of claim C5: the
in-order subsequence of all cell indices whose vertex count is nonzero. -/
def specCompacted (counts : List Nat) : List Nat :=
  (List.range counts.length).filter (fun i => counts.getD i 0 ≠ 0)

/-- The compacted valid-cell list as the code computes it from an
arbitrary per-cell vertex-count array: inclusive scan of the 0/1
indicator, then an upper-bound search for every rank below the last scan
element. -/
def compactedOf (counts : List Nat) : List Nat :=
  (List.range ((inclusive_scan (counts.map (fun n => if is_valid_cell n then 1 else 0))).getLastD 0)).map
    (upper_bound (inclusive_scan (counts.map (fun n => if is_valid_cell n then 1 else 0))))

/-! ### Helper lemmas -/

set_option maxRecDepth 8000

theorem aboveBit_le_one (f iso : ℚ) : aboveBit f iso ≤ 1 := by
  unfold aboveBit; split <;> omega

theorem cubeIndex_lt_256 (g : Grid) (iso : ℚ) (id : Nat) : cubeIndex g iso id < 256 := by
  have h0 := aboveBit_le_one (cornerSample g id 0) iso
  have h1 := aboveBit_le_one (cornerSample g id 1) iso
  have h2 := aboveBit_le_one (cornerSample g id 2) iso
  have h3 := aboveBit_le_one (cornerSample g id 3) iso
  have h4 := aboveBit_le_one (cornerSample g id 4) iso
  have h5 := aboveBit_le_one (cornerSample g id 5) iso
  have h6 := aboveBit_le_one (cornerSample g id 6) iso
  have h7 := aboveBit_le_one (cornerSample g id 7) iso
  unfold cubeIndex
  omega

theorem cubeIndex_bit (g : Grid) (iso : ℚ) (id k : Nat) (hk : k < 8) :
    cubeIndex g iso id / 2 ^ k % 2 = aboveBit (cornerSample g id k) iso := by
  have h0 := aboveBit_le_one (cornerSample g id 0) iso
  have h1 := aboveBit_le_one (cornerSample g id 1) iso
  have h2 := aboveBit_le_one (cornerSample g id 2) iso
  have h3 := aboveBit_le_one (cornerSample g id 3) iso
  have h4 := aboveBit_le_one (cornerSample g id 4) iso
  have h5 := aboveBit_le_one (cornerSample g id 5) iso
  have h6 := aboveBit_le_one (cornerSample g id 6) iso
  have h7 := aboveBit_le_one (cornerSample g id 7) iso
  unfold cubeIndex
  interval_cases k <;> (simp only [pow_succ, pow_zero, one_mul]; omega)

/-- Table fact, checked entry by entry: every edge listed in a case's used
portion of the triangle table has endpoints on opposite sides of the case
bit pattern. -/
theorem tri_straddle : ∀ c < 256, ∀ v < numVerticesTable_array.getD c 0,
    edgeEnd0 (triEdge c v).toNat < 8 ∧ edgeEnd1 (triEdge c v).toNat < 8 ∧
    c / 2 ^ edgeEnd0 (triEdge c v).toNat % 2 ≠ c / 2 ^ edgeEnd1 (triEdge c v).toNat % 2 := by
  decide

/-- Table fact: every vertex count is a multiple of 3. -/
theorem nv_mod3 : ∀ c < 256, numVerticesTable_array.getD c 0 % 3 = 0 := by decide

theorem inclusive_scan_cons (x : Nat) (xs : List Nat) :
    inclusive_scan (x :: xs) = x :: (inclusive_scan xs).map (x + ·) := by
  unfold inclusive_scan
  rw [List.length_cons, List.range_succ_eq_map]
  simp only [List.map_cons, List.map_map, List.take_succ_cons, List.sum_cons,
    List.take_zero, List.sum_nil, Nat.add_zero, Function.comp_def]

theorem exclusive_scan_cons (x : Nat) (xs : List Nat) :
    exclusive_scan (x :: xs) = 0 :: (exclusive_scan xs).map (x + ·) := by
  unfold exclusive_scan
  rw [List.length_cons, List.range_succ_eq_map]
  simp only [List.map_cons, List.map_map, List.take_succ_cons, List.sum_cons,
    List.take_zero, List.sum_nil, Function.comp_def]

theorem getLastD_map_add (x : Nat) :
    ∀ (s : List Nat) (y : Nat), (s.map (x + ·)).getLastD (x + y) = x + s.getLastD y := by
  intro s
  induction s with
  | nil => intro y; rfl
  | cons a as ih =>
    intro y
    simp only [List.map_cons, List.getLastD_cons]
    exact ih a

theorem inclusive_scan_getLastD (l : List Nat) :
    (inclusive_scan l).getLastD 0 = l.sum := by
  induction l with
  | nil => rfl
  | cons x xs ih =>
    rw [inclusive_scan_cons, List.getLastD_cons]
    have h := getLastD_map_add x (inclusive_scan xs) 0
    rw [Nat.add_zero] at h
    rw [h, ih, List.sum_cons]

theorem findIdx_map_add (x : Nat) (p : Nat → Bool) (l : List Nat) :
    (l.map (x + ·)).findIdx p = l.findIdx (fun y => p (x + y)) := by
  induction l with
  | nil => rfl
  | cons a as ih => simp only [List.map_cons, List.findIdx_cons, ih]

theorem upper_bound_cons (a : Nat) (s : List Nat) (v : Nat) :
    upper_bound (a :: s) v = if v < a then 0 else upper_bound s v + 1 := by
  unfold upper_bound
  rw [List.findIdx_cons]
  by_cases h : v < a <;> simp [h]

theorem upper_bound_map_add (x : Nat) (s : List Nat) (v : Nat) (h : x ≤ v) :
    upper_bound (s.map (x + ·)) v = upper_bound s (v - x) := by
  unfold upper_bound
  rw [findIdx_map_add]
  congr 1
  funext y
  rw [decide_eq_decide]
  omega

theorem ind_zero : (if is_valid_cell 0 then (1 : Nat) else 0) = 0 := rfl

theorem ind_pos (c : Nat) (h : c ≠ 0) : (if is_valid_cell c then (1 : Nat) else 0) = 1 := by
  simp [is_valid_cell, h]

/-- The heart of the compaction refinement: inclusive scan of the validity
indicator followed by rank-wise upper-bound search recovers exactly the
in-order list of indices with nonzero count. -/
theorem compactedOf_eq_specCompacted (counts : List Nat) :
    compactedOf counts = specCompacted counts := by
  induction counts with
  | nil => rfl
  | cons c cs ih =>
    unfold compactedOf specCompacted at ih ⊢
    rw [List.map_cons, inclusive_scan_cons]
    set s := inclusive_scan (cs.map (fun n => if is_valid_cell n then 1 else 0)) with hs
    set m := s.getLastD 0 with hm
    rw [List.length_cons, List.range_succ_eq_map, List.filter_cons]
    by_cases hc : c = 0
    · subst hc
      rw [ind_zero]
      have hmap : s.map (0 + ·) = s := by
        simp
      rw [hmap, List.getLastD_cons, ← hm]
      have hL : (List.range m).map (upper_bound (0 :: s))
          = ((List.range m).map (upper_bound s)).map (· + 1) := by
        rw [List.map_map]
        apply List.map_congr_left
        intro r _
        simp only [Function.comp_apply]
        rw [upper_bound_cons, if_neg (Nat.not_lt_zero r)]
      rw [hL, ih]
      rw [if_neg (by simp)]
      rw [List.filter_map]
      have hq : (fun i => decide ((0 :: cs).getD i 0 ≠ 0)) ∘ Nat.succ
          = (fun i => decide (cs.getD i 0 ≠ 0)) := by
        funext i
        simp [List.getD_cons_succ]
      rw [hq]
    · rw [ind_pos c hc]
      have hL1 : (List.map (1 + ·) s).getLastD 1 = 1 + m := by
        have h := getLastD_map_add 1 s 0
        rw [Nat.add_zero] at h
        rw [h, hm]
      rw [List.getLastD_cons, hL1, Nat.add_comm 1 m, List.range_succ_eq_map, List.map_cons]
      have hhead : upper_bound (1 :: List.map (1 + ·) s) 0 = 0 := by
        rw [upper_bound_cons, if_pos (by omega)]
      rw [hhead]
      have htail : (List.map Nat.succ (List.range m)).map (upper_bound (1 :: List.map (1 + ·) s))
          = ((List.range m).map (upper_bound s)).map (· + 1) := by
        rw [List.map_map, List.map_map]
        apply List.map_congr_left
        intro r _
        simp only [Function.comp_apply]
        rw [upper_bound_cons, if_neg (by omega), upper_bound_map_add 1 s _ (by omega)]
        simp
      rw [htail, ih]
      rw [if_pos (by simp [hc])]
      rw [List.filter_map]
      have hq : (fun i => decide ((c :: cs).getD i 0 ≠ 0)) ∘ Nat.succ
          = (fun i => decide (cs.getD i 0 ≠ 0)) := by
        funext i
        simp [List.getD_cons_succ]
      rw [hq]

theorem getD_map_range (f : Nat → Nat) (n j : Nat) (hj : j < n) :
    ((List.range n).map f).getD j 0 = f j := by
  rw [List.getD_eq_getElem?_getD, List.getElem?_map, List.getElem?_range hj]
  rfl

theorem exclusive_scan_length (l : List Nat) : (exclusive_scan l).length = l.length := by
  unfold exclusive_scan
  rw [List.length_map, List.length_range]

theorem exclusive_scan_getD (l : List Nat) (j : Nat) (hj : j < l.length) :
    (exclusive_scan l).getD j 0 = (l.take j).sum := by
  unfold exclusive_scan
  exact getD_map_range _ _ _ hj

theorem getLastD_eq_getD (l : List Nat) (d : Nat) :
    l.getLastD d = l.getD (l.length - 1) d := by
  rw [List.getLastD_eq_getLast?, List.getLast?_eq_getElem?, List.getD_eq_getElem?_getD]

theorem sum_take_mono (l : List Nat) : ∀ (j k : Nat), j ≤ k →
    (l.take j).sum ≤ (l.take k).sum := by
  induction l with
  | nil => intro j k _; simp
  | cons a as ih =>
    intro j k h
    cases j with
    | zero => simp
    | succ j =>
      cases k with
      | zero => omega
      | succ k =>
        simp only [List.take_succ_cons, List.sum_cons]
        have := ih j k (by omega)
        omega

theorem sum_take_lt (l : List Nat) (j k : Nat) (hjk : j < k) (hk : k ≤ l.length)
    (hpos : ∀ i, i < l.length → 0 < l.getD i 0) :
    (l.take j).sum < (l.take k).sum := by
  have hj1 : j < l.length := by omega
  have hsucc : (l.take (j + 1)).sum = (l.take j).sum + l[j] := List.sum_take_succ l j hj1
  have hgd : l.getD j 0 = l[j] := List.getD_eq_getElem l 0 hj1
  have hpj := hpos j hj1
  have hmono := sum_take_mono l (j + 1) k (by omega)
  omega

theorem take_sum_cover (l : List Nat) : ∀ (x : Nat), x < l.sum →
    ∃ j, j < l.length ∧ (l.take j).sum ≤ x ∧ x < (l.take j).sum + l.getD j 0 := by
  induction l with
  | nil => intro x hx; simp at hx
  | cons a as ih =>
    intro x hx
    by_cases hxa : x < a
    · exact ⟨0, by simp, by simp, by simpa using hxa⟩
    · rw [List.sum_cons] at hx
      obtain ⟨j, hj, h1, h2⟩ := ih (x - a) (by omega)
      refine ⟨j + 1, by simpa using hj, ?_, ?_⟩
      · simp only [List.take_succ_cons, List.sum_cons]
        omega
      · simp only [List.take_succ_cons, List.sum_cons, List.getD_cons_succ]
        omega

theorem num_vertices_list_length (g : Grid) (iso : ℚ) (flag : Bool) :
    (num_vertices_list g iso flag).length = g.NCells := by
  unfold num_vertices_list
  rw [List.length_map, List.length_range]

theorem num_vertices_list_getD (g : Grid) (iso : ℚ) (flag : Bool) (i : Nat)
    (hi : i < g.NCells) :
    (num_vertices_list g iso flag).getD i 0
      = numVerticesTable_array.getD (cubeIndex g iso i) 0 := by
  have h := getD_map_range (fun id => (classify_cell g iso flag id).2) g.NCells i hi
  exact h

theorem valid_cell_indices_eq_spec (g : Grid) (iso : ℚ) (flag : Bool) :
    valid_cell_indices g iso flag = specCompacted (num_vertices_list g iso flag) := by
  have h : valid_cell_indices g iso flag = compactedOf (num_vertices_list g iso flag) := rfl
  rw [h, compactedOf_eq_specCompacted]

theorem mem_valid_cell_indices (g : Grid) (iso : ℚ) (flag : Bool) (i : Nat) :
    i ∈ valid_cell_indices g iso flag
      ↔ i < g.NCells ∧ (num_vertices_list g iso flag).getD i 0 ≠ 0 := by
  rw [valid_cell_indices_eq_spec]
  unfold specCompacted
  rw [List.mem_filter, List.mem_range, num_vertices_list_length]
  simp

theorem valid_cell_indices_length (g : Grid) (iso : ℚ) (flag : Bool) :
    (valid_cell_indices g iso flag).length = num_valid_cells g iso flag := by
  unfold valid_cell_indices
  rw [List.length_map, List.length_range]

theorem valid_counts_length (g : Grid) (iso : ℚ) (flag : Bool) :
    (valid_counts g iso flag).length = num_valid_cells g iso flag := by
  unfold valid_counts
  rw [List.length_map, valid_cell_indices_length]

theorem valid_counts_pos_mod3 (g : Grid) (iso : ℚ) (flag : Bool) :
    ∀ x ∈ valid_counts g iso flag, 0 < x ∧ x % 3 = 0 := by
  intro x hx
  unfold valid_counts at hx
  rw [List.mem_map] at hx
  obtain ⟨i, hi, rfl⟩ := hx
  rw [mem_valid_cell_indices] at hi
  obtain ⟨hlt, hnz⟩ := hi
  refine ⟨by omega, ?_⟩
  rw [num_vertices_list_getD g iso flag i hlt]
  exact nv_mod3 _ (cubeIndex_lt_256 g iso i)

theorem valid_counts_getD_pos (g : Grid) (iso : ℚ) (flag : Bool) (j : Nat)
    (hj : j < (valid_counts g iso flag).length) :
    0 < (valid_counts g iso flag).getD j 0
      ∧ (valid_counts g iso flag).getD j 0 % 3 = 0 := by
  have hmem : (valid_counts g iso flag).getD j 0 ∈ valid_counts g iso flag := by
    rw [List.getD_eq_getElem _ _ hj]
    exact List.getElem_mem hj
  exact valid_counts_pos_mod3 g iso flag _ hmem

theorem getLastD_map_of_ne_nil (f : Nat → Nat) (l : List Nat) (hl : l ≠ []) (d e : Nat) :
    (l.map f).getLastD d = f (l.getLastD e) := by
  rw [List.getLastD_eq_getLast?, List.getLastD_eq_getLast?, List.getLast?_map]
  cases hx : l.getLast? with
  | none => rw [List.getLast?_eq_none_iff] at hx; exact absurd hx hl
  | some a => rfl

theorem num_total_eq_sum (g : Grid) (iso : ℚ) (flag : Bool)
    (h : 1 ≤ num_valid_cells g iso flag) :
    num_total_vertices g iso flag = (valid_counts g iso flag).sum := by
  set vc := valid_counts g iso flag with hvc
  have hlen : vc.length = num_valid_cells g iso flag := valid_counts_length g iso flag
  have hvi_ne : valid_cell_indices g iso flag ≠ [] :=
    List.ne_nil_of_length_pos (by rw [valid_cell_indices_length]; omega)
  have hlt : vc.length - 1 < vc.length := by omega
  unfold num_total_vertices
  have h1 : (num_vertices_list g iso flag).getD ((valid_cell_indices g iso flag).getLastD 0) 0
      = vc.getLastD 0 := by
    rw [hvc]
    unfold valid_counts
    rw [getLastD_map_of_ne_nil _ _ hvi_ne 0 0]
  have h2 : (output_vertices_enum g iso flag).getLastD 0 = (vc.take (vc.length - 1)).sum := by
    unfold output_vertices_enum
    rw [getLastD_eq_getD, exclusive_scan_length, ← hvc, exclusive_scan_getD vc _ hlt]
  have hsum : (vc.take (vc.length - 1 + 1)).sum
      = (vc.take (vc.length - 1)).sum + vc[vc.length - 1] := List.sum_take_succ vc _ hlt
  have htl : vc.length - 1 + 1 = vc.length := by omega
  rw [htl, List.take_length] at hsum
  have hgl : vc.getLastD 0 = vc[vc.length - 1] := by
    rw [getLastD_eq_getD, List.getD_eq_getElem _ _ hlt]
  rw [h1, h2, hgl]
  omega

theorem num_valid_zero_of_ncells_zero (g : Grid) (iso : ℚ) (flag : Bool)
    (hz : g.NCells = 0) : num_valid_cells g iso flag = 0 := by
  unfold num_valid_cells valid_cell_enum num_vertices_list
  rw [hz]
  rfl

theorem off_add_count (g : Grid) (iso : ℚ) (flag : Bool) (j : Nat)
    (hj : j < (valid_counts g iso flag).length) :
    (output_vertices_enum g iso flag).getD j 0 + (valid_counts g iso flag).getD j 0
      = ((valid_counts g iso flag).take (j + 1)).sum := by
  unfold output_vertices_enum
  rw [exclusive_scan_getD _ j hj, List.getD_eq_getElem _ _ hj, ← List.sum_take_succ _ j hj]

theorem demo_samples_bottom : ∀ k < 4, cornerSample demoGrid 0 k = 0 := by decide

theorem demo_samples_top : ∀ k < 8, 4 ≤ k → cornerSample demoGrid 0 k = 1 := by decide

theorem demo_cube240 : cubeIndex demoGrid (1/2) 0 = 240 := by
  unfold cubeIndex
  rw [demo_samples_bottom 0 (by omega), demo_samples_bottom 1 (by omega),
      demo_samples_bottom 2 (by omega), demo_samples_bottom 3 (by omega),
      demo_samples_top 4 (by omega) (by omega), demo_samples_top 5 (by omega) (by omega),
      demo_samples_top 6 (by omega) (by omega), demo_samples_top 7 (by omega) (by omega)]
  unfold aboveBit
  norm_num

theorem demo_classify : classify_cell demoGrid (1/2) true 0 = (240, 6) := by
  simp only [classify_cell]
  rw [demo_cube240]
  decide

theorem demo_t_edge (e : Nat) (h8 : 8 ≤ e) (h11 : e < 12) :
    (1/2 - cornerSample demoGrid 0 (edgeEnd0 e)) /
      (cornerSample demoGrid 0 (edgeEnd1 e) - cornerSample demoGrid 0 (edgeEnd0 e))
      = 1/2 := by
  have he0 : edgeEnd0 e < 4 := by interval_cases e <;> decide
  have he1a : 4 ≤ edgeEnd1 e := by interval_cases e <;> decide
  have he1b : edgeEnd1 e < 8 := by interval_cases e <;> decide
  rw [demo_samples_bottom _ he0, demo_samples_top _ he1b he1a]
  norm_num

theorem demo_t : ∀ v < 6, interpFactor demoGrid (1/2) 0 v = 1/2 := by
  intro v hv
  interval_cases v <;>
    (simp only [interpFactor]; rw [demo_cube240]; exact demo_t_edge _ (by decide) (by decide))

/-! ### Claims -/

/-- C1: for every grid with all dimensions at least 2, every isovalue,
every valid cell and every vertex slot below the cell's vertex count, the
edge taken from `triTable` for that slot joins two corners whose scalar
samples lie on opposite sides of the isovalue under the strict
greater-than classification (one sample above, the other not above), so
the interpolation denominator `f[v1] - f[v0]` is nonzero and the division
computing `t` never divides by zero. -/
theorem tri_table_edge_straddles_isovalue (g : Grid) (iso : ℚ) (cellId v : Nat)
    (hd0 : 2 ≤ g.dim0) (hd1 : 2 ≤ g.dim1) (hd2 : 2 ≤ g.dim2)
    (hcell : cellId < g.NCells)
    (hv : v < (classify_cell g iso true cellId).2) :
    ((iso < cornerSample g cellId (edgeEnd1 ((triEdge (cubeIndex g iso cellId) v).toNat))
        ∧ ¬ iso < cornerSample g cellId (edgeEnd0 ((triEdge (cubeIndex g iso cellId) v).toNat)))
      ∨ (iso < cornerSample g cellId (edgeEnd0 ((triEdge (cubeIndex g iso cellId) v).toNat))
        ∧ ¬ iso < cornerSample g cellId (edgeEnd1 ((triEdge (cubeIndex g iso cellId) v).toNat))))
    ∧ interpDenom g iso cellId v ≠ 0 := by
  have hc := cubeIndex_lt_256 g iso cellId
  obtain ⟨he0, he1, hne⟩ := tri_straddle (cubeIndex g iso cellId) hc v hv
  rw [cubeIndex_bit g iso cellId _ he0, cubeIndex_bit g iso cellId _ he1] at hne
  set e := (triEdge (cubeIndex g iso cellId) v).toNat with he
  have hstrad :
      (iso < cornerSample g cellId (edgeEnd1 e) ∧ ¬ iso < cornerSample g cellId (edgeEnd0 e))
      ∨ (iso < cornerSample g cellId (edgeEnd0 e) ∧ ¬ iso < cornerSample g cellId (edgeEnd1 e)) := by
    unfold aboveBit at hne
    by_cases p0 : iso < cornerSample g cellId (edgeEnd0 e) <;>
      by_cases p1 : iso < cornerSample g cellId (edgeEnd1 e) <;>
      simp [p0, p1] at hne ⊢
  refine ⟨hstrad, ?_⟩
  unfold interpDenom
  rw [← he]
  rcases hstrad with ⟨h1, h0⟩ | ⟨h0, h1⟩
  · exact sub_ne_zero.mpr (ne_of_gt (lt_of_le_of_lt (not_lt.mp h0) h1))
  · exact sub_ne_zero.mpr (ne_of_lt (lt_of_le_of_lt (not_lt.mp h1) h0))

/-- C1 witness: the single-cell demonstration grid at isovalue 0 has a
valid cell whose first output slot has a nonzero interpolation
denominator. -/
theorem tri_table_edge_straddles_isovalue_witness :
    2 ≤ demoGrid.dim0 ∧ 2 ≤ demoGrid.dim1 ∧ 2 ≤ demoGrid.dim2 ∧
    0 < demoGrid.NCells ∧ 0 < (classify_cell demoGrid 0 true 0).2 ∧
    interpDenom demoGrid 0 0 0 ≠ 0 :=
  ⟨by decide, by decide, by decide, by decide, by decide,
   (tri_table_edge_straddles_isovalue demoGrid 0 0 0 (by decide) (by decide) (by decide)
      (by decide) (by decide)).2⟩

/-- C2 counterexample: in the single-cell bottom=0/top=1 grid with
isovalue 1/2, the vertex count of the classified cell is 6, not the 12
the claim states. -/
theorem single_cell_case240_count_not_12 :
    (classify_cell demoGrid (1/2) true 0).2 ≠ 12 := by
  rw [demo_classify]
  decide

/-- C2 (amended): for the single-cell grid whose bottom-face corners
sample 0 and top-face corners sample 1, with isovalue 1/2, classification
yields case index 240 with vertex count 6 (two triangles forming the
separating plane), and every interpolation factor `t` computed for the
cell equals 1/2. -/
theorem single_cell_case240 :
    classify_cell demoGrid (1/2) true 0 = (240, 6) ∧
    interpFactor demoGrid (1/2) 0 0 = 1/2 ∧
    interpFactor demoGrid (1/2) 0 1 = 1/2 ∧
    interpFactor demoGrid (1/2) 0 2 = 1/2 ∧
    interpFactor demoGrid (1/2) 0 3 = 1/2 ∧
    interpFactor demoGrid (1/2) 0 4 = 1/2 ∧
    interpFactor demoGrid (1/2) 0 5 = 1/2 :=
  ⟨demo_classify, demo_t 0 (by omega), demo_t 1 (by omega), demo_t 2 (by omega),
   demo_t 3 (by omega), demo_t 4 (by omega), demo_t 5 (by omega)⟩

/-- C3 (claim says num_total_vertices must be 0 after an extraction whose
isovalue exceeds every sample; the code's early-return path never assigns
the member): after a first extraction of the demonstration grid at
isovalue 0 leaving 6 total vertices, re-extracting at isovalue 2 — which
strictly exceeds the maximum sample 1, so no cell is valid — returns with
the outputs cleared but `num_total_vertices` still equal to the stale 6. -/
theorem num_total_vertices_stale_after_empty_extraction :
    run_extraction demoGrid 0 true ⟨0, 0, 0⟩ = Except.ok ⟨6, 6, 6⟩ ∧
    num_valid_cells demoGrid 2 true = 0 ∧
    run_extraction demoGrid 2 true ⟨6, 6, 6⟩ = Except.ok ⟨0, 0, 6⟩ := by
  refine ⟨?_, ?_, ?_⟩ <;> rfl

/-- C4: every case index's vertex count is a multiple of 3 and equals the
number of non-sentinel entries of the corresponding triangle-table row. -/
theorem vertex_count_table_consistent : ∀ i < 256,
    numVerticesTable_array.getD i 0 % 3 = 0 ∧
    numVerticesTable_array.getD i 0
      = (triTable_array.getD i []).countP (fun e => e != -1) := by
  decide

/-- C4 witness: instantiation at case index 7 (three triangles). -/
theorem vertex_count_table_consistent_witness :
    (7 : Nat) < 256 ∧
    (numVerticesTable_array.getD 7 0 % 3 = 0 ∧
     numVerticesTable_array.getD 7 0
       = (triTable_array.getD 7 []).countP (fun e => e != -1)) :=
  ⟨by decide, vertex_count_table_consistent 7 (by decide)⟩

/-- C5: for every per-cell vertex-count array, the compacted valid-cell
list produced by the inclusive scan of the nonzero indicator followed by
rank-wise upper-bound search equals the in-order subsequence of cell
indices with nonzero count, and its length is the last element of the
inclusive scan. -/
theorem compaction_recovers_valid_cells (counts : List Nat) :
    compactedOf counts = specCompacted counts ∧
    (compactedOf counts).length
      = (inclusive_scan (counts.map (fun n => if is_valid_cell n then 1 else 0))).getLastD 0 := by
  refine ⟨compactedOf_eq_specCompacted counts, ?_⟩
  unfold compactedOf
  rw [List.length_map, List.length_range]

/-- C6: after any extraction with at least one valid cell, the output
offsets of the compacted valid-cell list are strictly increasing, the
last offset plus the last valid cell's vertex count equals
`num_total_vertices`, `num_total_vertices` equals the sum of the valid
cells' vertex counts, and `num_total_vertices` is a multiple of 3. -/
theorem offsets_increasing_and_total_consistent (g : Grid) (iso : ℚ) (flag : Bool)
    (h : 1 ≤ num_valid_cells g iso flag) :
    (∀ j k, j < k → k < num_valid_cells g iso flag →
        (output_vertices_enum g iso flag).getD j 0
          < (output_vertices_enum g iso flag).getD k 0) ∧
    (output_vertices_enum g iso flag).getLastD 0
        + (num_vertices_list g iso flag).getD ((valid_cell_indices g iso flag).getLastD 0) 0
      = num_total_vertices g iso flag ∧
    num_total_vertices g iso flag = (valid_counts g iso flag).sum ∧
    num_total_vertices g iso flag % 3 = 0 := by
  have hlen := valid_counts_length g iso flag
  refine ⟨?_, ?_, num_total_eq_sum g iso flag h, ?_⟩
  · intro j k hjk hk
    unfold output_vertices_enum
    rw [exclusive_scan_getD _ j (by omega), exclusive_scan_getD _ k (by omega)]
    exact sum_take_lt _ j k hjk (by omega)
      (fun i hi => (valid_counts_getD_pos g iso flag i hi).1)
  · unfold num_total_vertices
    omega
  · rw [num_total_eq_sum g iso flag h]
    have hdvd : (3 : Nat) ∣ (valid_counts g iso flag).sum := by
      apply List.dvd_sum
      intro x hx
      have hx3 := (valid_counts_pos_mod3 g iso flag x hx).2
      omega
    obtain ⟨c, hc⟩ := hdvd
    omega

/-- C6 witness: the demonstration grid at isovalue 0 has one valid cell
and a vertex total that is a multiple of 3. -/
theorem offsets_increasing_and_total_consistent_witness :
    1 ≤ num_valid_cells demoGrid 0 true ∧ num_total_vertices demoGrid 0 true % 3 = 0 :=
  ⟨by decide, (offsets_increasing_and_total_consistent demoGrid 0 true (by decide)).2.2.2⟩

/-- C7: with at least one valid cell, the extraction resizes both output
arrays to exactly `num_total_vertices`; each valid cell's write range
`[offset, offset + count)` stays inside `[0, num_total_vertices)`, the
ranges of distinct cells are disjoint, together they cover every output
slot, and both per-cell write loops of the geometry functor write only
indices inside their cell's range. -/
theorem geometry_writes_partition_output (g : Grid) (iso : ℚ) (flag : Bool) (s : MCState)
    (h : 1 ≤ num_valid_cells g iso flag) :
    (run_extraction g iso flag s
        = Except.ok ⟨num_total_vertices g iso flag, num_total_vertices g iso flag,
                     num_total_vertices g iso flag⟩) ∧
    (∀ j, j < num_valid_cells g iso flag →
        (output_vertices_enum g iso flag).getD j 0 + (valid_counts g iso flag).getD j 0
          ≤ num_total_vertices g iso flag) ∧
    (∀ j k, j < k → k < num_valid_cells g iso flag →
        (output_vertices_enum g iso flag).getD j 0 + (valid_counts g iso flag).getD j 0
          ≤ (output_vertices_enum g iso flag).getD k 0) ∧
    (∀ x, x < num_total_vertices g iso flag →
        ∃ j, j < num_valid_cells g iso flag ∧
          (output_vertices_enum g iso flag).getD j 0 ≤ x ∧
          x < (output_vertices_enum g iso flag).getD j 0
              + (valid_counts g iso flag).getD j 0) ∧
    (∀ j, j < num_valid_cells g iso flag →
        ∀ idx ∈ vertexWriteIndices ((output_vertices_enum g iso flag).getD j 0)
            ((valid_counts g iso flag).getD j 0),
          (output_vertices_enum g iso flag).getD j 0 ≤ idx ∧
          idx < (output_vertices_enum g iso flag).getD j 0
              + (valid_counts g iso flag).getD j 0) ∧
    (∀ j, j < num_valid_cells g iso flag →
        ∀ idx ∈ normalWriteIndices ((output_vertices_enum g iso flag).getD j 0)
            ((valid_counts g iso flag).getD j 0),
          (output_vertices_enum g iso flag).getD j 0 ≤ idx ∧
          idx < (output_vertices_enum g iso flag).getD j 0
              + (valid_counts g iso flag).getD j 0) := by
  have hlen := valid_counts_length g iso flag
  have hsum := num_total_eq_sum g iso flag h
  refine ⟨?_, ?_, ?_, ?_, ?_, ?_⟩
  · have hnc : ¬ g.NCells = 0 := by
      intro hz
      have := num_valid_zero_of_ncells_zero g iso flag hz
      omega
    have hnv : ¬ num_valid_cells g iso flag = 0 := by omega
    unfold run_extraction
    rw [if_neg hnc, if_neg hnv]
  · intro j hj
    rw [off_add_count g iso flag j (by omega), hsum]
    have := sum_take_mono (valid_counts g iso flag) (j + 1) (valid_counts g iso flag).length
      (by omega)
    rw [List.take_length] at this
    exact this
  · intro j k hjk hk
    rw [off_add_count g iso flag j (by omega)]
    unfold output_vertices_enum
    rw [exclusive_scan_getD _ k (by omega)]
    exact sum_take_mono _ (j + 1) k (by omega)
  · intro x hx
    rw [hsum] at hx
    obtain ⟨j, hj, h1, h2⟩ := take_sum_cover (valid_counts g iso flag) x hx
    refine ⟨j, by omega, ?_, ?_⟩
    · unfold output_vertices_enum
      rw [exclusive_scan_getD _ j (by omega)]
      exact h1
    · unfold output_vertices_enum
      rw [exclusive_scan_getD _ j (by omega)]
      exact h2
  · intro j hj idx hidx
    unfold vertexWriteIndices at hidx
    rw [List.mem_map] at hidx
    obtain ⟨v, hv, rfl⟩ := hidx
    rw [List.mem_range] at hv
    omega
  · intro j hj idx hidx
    have h3 := (valid_counts_getD_pos g iso flag j (by omega)).2
    unfold normalWriteIndices at hidx
    rw [List.mem_flatMap] at hidx
    obtain ⟨v, hv, hin⟩ := hidx
    rw [List.mem_filter, List.mem_range] at hv
    obtain ⟨hvlt, hv3⟩ := hv
    have hv3' : v % 3 = 0 := by simpa using hv3
    simp only [List.mem_cons, List.not_mem_nil, or_false] at hin
    rcases hin with rfl | rfl | rfl <;> omega

/-- C7 witness: the demonstration grid at isovalue 0 resizes both outputs
to its vertex total. -/
theorem geometry_writes_partition_output_witness :
    1 ≤ num_valid_cells demoGrid 0 true ∧
    run_extraction demoGrid 0 true ⟨0, 0, 0⟩
      = Except.ok ⟨num_total_vertices demoGrid 0 true, num_total_vertices demoGrid 0 true,
                   num_total_vertices demoGrid 0 true⟩ :=
  ⟨by decide, (geometry_writes_partition_output demoGrid 0 true ⟨0, 0, 0⟩ (by decide)).1⟩

/-- C8: for every cell of a grid with all dimensions at least 2,
`classify_cell` returns the case index whose bit `k` is set iff the
sample at corner `k` (at the offsets the spec lists) strictly exceeds the
isovalue, paired with that case's entry of the vertex-count table. -/
theorem classify_cell_matches_spec (g : Grid) (iso : ℚ) (flag : Bool) (id : Nat)
    (hd0 : 2 ≤ g.dim0) (hd1 : 2 ≤ g.dim1) (hd2 : 2 ≤ g.dim2) (hid : id < g.NCells) :
    classify_cell g iso flag id
      = (specCaseIndex g iso id, numVerticesTable_array.getD (specCaseIndex g iso id) 0) := by
  have hcorner : ∀ k, k < 8 → cornerIndex g id k = specCorner g id k := by
    intro k hk
    interval_cases k <;>
      (simp [cornerIndex, specCorner, Grid.pointsPerLayer, Grid.cellsPerLayer]; try omega)
  have hc : cubeIndex g iso id = specCaseIndex g iso id := by
    unfold cubeIndex specCaseIndex cornerSample aboveBit
    rw [Finset.sum_range_succ, Finset.sum_range_succ, Finset.sum_range_succ,
        Finset.sum_range_succ, Finset.sum_range_succ, Finset.sum_range_succ,
        Finset.sum_range_succ, Finset.sum_range_succ, Finset.sum_range_zero]
    rw [hcorner 0 (by omega), hcorner 1 (by omega), hcorner 2 (by omega),
        hcorner 3 (by omega), hcorner 4 (by omega), hcorner 5 (by omega),
        hcorner 6 (by omega), hcorner 7 (by omega)]
    norm_num [ite_mul]
  unfold classify_cell
  rw [hc]

/-- C8 witness: instantiation at the demonstration grid, cell 0,
isovalue 0. -/
theorem classify_cell_matches_spec_witness :
    2 ≤ demoGrid.dim0 ∧ 2 ≤ demoGrid.dim1 ∧ 2 ≤ demoGrid.dim2 ∧ 0 < demoGrid.NCells ∧
    classify_cell demoGrid 0 true 0
      = (specCaseIndex demoGrid 0 0, numVerticesTable_array.getD (specCaseIndex demoGrid 0 0) 0) :=
  ⟨by decide, by decide, by decide, by decide,
   classify_cell_matches_spec demoGrid 0 true 0 (by decide) (by decide) (by decide) (by decide)⟩

/-- C9 counterexample: a grid with `dim0 = 1 < 2` is not rejected before
the passes; the extraction runs the (vacuous) classification and scan
passes and then reaches the undefined read `valid_cell_enum.back()` on
the empty enumeration. -/
theorem undersized_grid_not_rejected :
    flatGrid.dim0 < 2 ∧
    run_extraction flatGrid 0 true ⟨0, 0, 0⟩ = Except.error Fault.backOnEmptyEnum := by
  exact ⟨by decide, rfl⟩

/-- C9 (amended): extraction performs no dimension validation; for any
grid with a dimension below 2 the cell count is zero, the classification
and scan passes run over an empty range, and the run then aborts at the
`back()` read of the empty enumeration instead of failing fast with a
configuration rejection. -/
theorem undersized_grid_reaches_empty_back (g : Grid) (iso : ℚ) (flag : Bool) (s : MCState)
    (h : g.dim0 < 2 ∨ g.dim1 < 2 ∨ g.dim2 < 2) :
    run_extraction g iso flag s = Except.error Fault.backOnEmptyEnum := by
  have hz : g.NCells = 0 := by
    unfold Grid.NCells
    rcases h with h | h | h
    · have h1 : g.dim0 - 1 = 0 := by omega
      rw [h1, Nat.zero_mul, Nat.zero_mul]
    · have h1 : g.dim1 - 1 = 0 := by omega
      rw [h1, Nat.mul_zero, Nat.zero_mul]
    · have h1 : g.dim2 - 1 = 0 := by omega
      rw [h1, Nat.mul_zero]
  unfold run_extraction
  rw [if_pos hz]

/-- C9 witness: instantiation at the degenerate grid with an arbitrary
prior state. -/
theorem undersized_grid_reaches_empty_back_witness :
    (flatGrid.dim0 < 2 ∨ flatGrid.dim1 < 2 ∨ flatGrid.dim2 < 2) ∧
    run_extraction flatGrid 5 false ⟨1, 2, 3⟩ = Except.error Fault.backOnEmptyEnum :=
  ⟨by decide, undersized_grid_reaches_empty_back flatGrid 5 false ⟨1, 2, 3⟩ (by decide)⟩

/-- C10: the `discardMinVals` flag has no observable effect: its only use
in `classify_cell` is commented out, so the classification pair and the
whole extraction output (case indices, counts, compaction, totals,
vertices and normal directions) are identical for both flag values. -/
theorem discard_flag_has_no_effect (g : Grid) (co : Nat → ℚ × ℚ × ℚ) (iso : ℚ)
    (id : Nat) (b1 b2 : Bool) :
    classify_cell g iso b1 id = classify_cell g iso b2 id ∧
    extraction_output g co iso b1 = extraction_output g co iso b2 :=
  ⟨rfl, rfl⟩

end Piston
